import Mathlib

/-!
Shallow embedding of the credential and cluster-access layer of the
oke-mcp-server repository.

The embedding covers three source modules:

* `src/oke_auth.py` — the kubeconfig (credential bundle) decoder with its
  four-strategy fallback ladder, the current-context normalization, the
  TTL-derived credential-bundle cache, and the
  `_load_kubeconfig_for_cluster` flow.
* `src/oke_mcp_server/auth.py` — the identity-resolution ladder of
  `get_container_engine_client` (resource principals, instance principals,
  security token, user API key), its region inference, its `lru_cache`
  client cache, and `invalidate_auth_cache`.
* `src/oci_auth.py` — the module-level write-once caches of `get_config`
  and `get_signer`.

External library calls (`yaml.safe_load`, `json.loads`,
`unicode_escape` decoding, the Kubernetes loader, the OCI SDK signer
constructors and filesystem access) are modelled as oracle/environment
functions supplied as parameters; every branch of the repository's own
code is translated faithfully.  Python truthiness of strings is modelled
with `Option String` plus explicit emptiness checks.
-/

instance {α β : Type} [DecidableEq α] [DecidableEq β] : DecidableEq (Except α β) :=
  fun x y =>
  match x, y with
  | .ok a, .ok b =>
    if h : a = b then isTrue (by rw [h]) else isFalse (by simp [h])
  | .error a, .error b =>
    if h : a = b then isTrue (by rw [h]) else isFalse (by simp [h])
  | .ok _, .error _ => isFalse (by simp)
  | .error _, .ok _ => isFalse (by simp)

/-- Python truthiness of an optional string: `None` and `""` are falsy. -/
def otruthy : Option String → Bool
  | some s => !s.isEmpty
  | none => false

/-- Python `a or b` on optional strings (falsy left operand selects `b`). -/
def pyOr (a b : Option String) : Option String :=
  match a with
  | some s => if s.isEmpty then b else some s
  | none => b

/-- Python `int(e or 3600)` on an optional integer (`None` and `0` are falsy). -/
def pyOrInt (a : Option Int) (b : Int) : Int :=
  match a with
  | some v => if v = 0 then b else v
  | none => b

/-- Python `str.strip()`: remove whitespace from both ends (structural, so
that concrete witnesses evaluate in the kernel). -/
def pyStrip (s : String) : String :=
  ⟨((s.toList.dropWhile Char.isWhitespace).reverse.dropWhile Char.isWhitespace).reverse⟩

/-- `cs` begins with `ps` (character-list matcher). -/
def charsBegin : List Char → List Char → Bool
  | _, [] => true
  | [], _ :: _ => false
  | c :: cs, p :: ps => c = p && charsBegin cs ps

/-- Python `str.startswith`. -/
def strBegins (s p : String) : Bool := charsBegin s.toList p.toList

/-- Python `str.endswith`. -/
def strEndsWith (s p : String) : Bool :=
  charsBegin s.toList.reverse p.toList.reverse

/-- Python `s[1:-1]`: drop the first and last character. -/
def stripOuterChars (s : String) : String := ⟨(s.toList.drop 1).dropLast⟩

/-- Python `str.lower()`. -/
def lowerStr (s : String) : String := ⟨s.toList.map Char.toLower⟩

/-- Python `str.upper()`. -/
def upperStr (s : String) : String := ⟨s.toList.map Char.toUpper⟩

/-- The single-quote character, used by the quote-stripping decode strategy. -/
def singleQuote : String := String.singleton (Char.ofNat 39)

/-- An entry of a kubeconfig `clusters` / `users` / `contexts` list: either a
mapping (with an optional `name`, an optional `context` cluster/user pair, and
— for user entries — optional `user.exec.args`) or a non-mapping value. -/
inductive YEntry
  | obj (name : Option String) (ctx : Option (String × String))
        (execArgs : Option (List String))
  | nonDict
deriving DecidableEq

/-- The value found under a kubeconfig top-level key: a list or a non-list. -/
inductive YField
  | list (xs : List YEntry)
  | nonList
deriving DecidableEq

/-- The canonical decoded credential bundle (kubeconfig mapping).  A field is
`none` when the key is absent (or present with a null value, which the source
code treats identically in every branch it takes). -/
structure KubeCfg where
  currentContext : Option String
  contexts : Option YField
  clusters : Option YField
  users : Option YField
deriving DecidableEq

/-- The bundle with zero clusters, zero users, zero contexts, no current
context. -/
def emptyKubeCfg : KubeCfg := ⟨none, none, none, none⟩

/-- Result of `yaml.safe_load`: a mapping, or some non-mapping scalar/list. -/
inductive YamlVal
  | map (m : KubeCfg)
  | scalar
deriving DecidableEq

/-- Result of `json.loads`: a string, or some non-string value. -/
inductive JsonVal
  | str (s : String)
  | nonStr
deriving DecidableEq

/-- Oracle for the external text-parsing libraries used by the decoder:
`yaml.safe_load` (`none` = exception raised), `json.loads` (`none` =
exception), and `bytes(·).decode(unicode_escape)` (`none` = exception). -/
structure Oracle where
  safeLoad : String → Option YamlVal
  jsonLoads : String → Option JsonVal
  unicodeEscape : String → Option String

/-- `_try_parse_yaml` of `src/oke_auth.py`: parse and keep the value only if
it is a mapping. -/
def tryParseYaml (o : Oracle) (text : String) : Option KubeCfg :=
  match o.safeLoad text with
  | some (.map m) => some m
  | _ => none

/-- Decode strategy 1 (`src/oke_auth.py` line 151): parse the raw text as-is. -/
def decodeStrat1 (o : Oracle) (raw : String) : Option KubeCfg :=
  tryParseYaml o raw

/-- Decode strategy 2 (`src/oke_auth.py` lines 154-166): if the stripped text
is wrapped in one layer of matching quote characters, strip them and retry;
if that fails, un-escape backslash sequences and retry. -/
def decodeStrat2 (o : Oracle) (raw : String) : Option KubeCfg :=
  let s := pyStrip raw
  if (strBegins s "\"" && strEndsWith s "\"")
      || (strBegins s singleQuote && strEndsWith s singleQuote) then
    let s1 := stripOuterChars s
    match tryParseYaml o s1 with
    | some c => some c
    | none =>
      match o.unicodeEscape s1 with
      | some s1u => tryParseYaml o s1u
      | none => none
  else none

/-- Decode strategy 3 (`src/oke_auth.py` lines 169-182): JSON-parse the
original text; if it yields a string, parse that inner text; if that fails,
un-escape the inner text and retry. -/
def decodeStrat3 (o : Oracle) (raw : String) : Option KubeCfg :=
  match o.jsonLoads raw with
  | some (.str inner) =>
    (match tryParseYaml o inner with
     | some c => some c
     | none =>
       match o.unicodeEscape inner with
       | some innerU => tryParseYaml o innerU
       | none => none)
  | _ => none

/-- Decode strategy 4 (`src/oke_auth.py` lines 185-190): un-escape the
original text wholesale and retry. -/
def decodeStrat4 (o : Oracle) (raw : String) : Option KubeCfg :=
  match o.unicodeEscape raw with
  | some s2 => tryParseYaml o s2
  | none => none

/-- The decode fallback ladder of `_load_kubeconfig_for_cluster`
(`src/oke_auth.py` lines 141-190), translated with the source's exact
control flow: `cfg` starts as the direct parse and each later block runs
only while `cfg` is still `None`. -/
def decodeLadder (o : Oracle) (raw : String) : Option KubeCfg :=
  match tryParseYaml o raw with
  | some cfg => some cfg
  | none =>
    let s := pyStrip raw
    let cfgQ : Option KubeCfg :=
      if (strBegins s "\"" && strEndsWith s "\"")
          || (strBegins s singleQuote && strEndsWith s singleQuote) then
        let s1 := stripOuterChars s
        match tryParseYaml o s1 with
        | some c => some c
        | none =>
          match o.unicodeEscape s1 with
          | some s1u => tryParseYaml o s1u
          | none => none
      else none
    match cfgQ with
    | some c => some c
    | none =>
      let cfgJ : Option KubeCfg :=
        match o.jsonLoads raw with
        | some (.str inner) =>
          (match tryParseYaml o inner with
           | some c => some c
           | none =>
             match o.unicodeEscape inner with
             | some innerU => tryParseYaml o innerU
             | none => none)
        | _ => none
      match cfgJ with
      | some c => some c
      | none =>
        match o.unicodeEscape raw with
        | some s2 => tryParseYaml o s2
        | none => none

/-- `args.index("--auth")` / `args[idx+1] = ...` / `args.extend(...)` patching
of one exec-args list (`src/oke_auth.py` lines 48-59). -/
def patchExecArgs (args : List String) : List String :=
  match args.findIdx? (fun a => a = "--auth") with
  | some idx =>
    if idx + 1 < args.length then args.set (idx + 1) "security_token"
    else args ++ ["--auth", "security_token"]
  | none => args ++ ["--auth", "security_token"]

/-- `_maybe_patch_security_token_exec` (`src/oke_auth.py` lines 28-62): when
the `OCI_CLI_AUTH` environment variable is `security_token`, rewrite each
user's exec args; otherwise leave the mapping untouched.  A user entry whose
nested `user.exec.args` shape is absent is left unchanged. -/
def maybePatchSecurityTokenExec (ociCliAuthEnv : Option String) (cfg : KubeCfg) :
    KubeCfg :=
  if (lowerStr (ociCliAuthEnv.getD "") = "security_token") then
    match cfg.users with
    | some (.list us) =>
      { cfg with users := some (.list (us.map (fun u =>
          match u with
          | .obj nm ctx (some args) => .obj nm ctx (some (patchExecArgs args))
          | other => other))) }
    | _ => cfg
  else cfg

/-- First normalization rule (`src/oke_auth.py` lines 199-204): if
`current-context` is absent and `cfg.get("contexts") or []` is a list with
exactly one mapping entry carrying a truthy name, select that name. -/
def normalizeStep1 (cfg : KubeCfg) : KubeCfg :=
  if cfg.currentContext.isSome then cfg
  else
    match cfg.contexts.getD (.list []) with
    | .list [.obj nm _ _] =>
      (match nm with
       | some n => if n.isEmpty then cfg else { cfg with currentContext := some n }
       | none => cfg)
    | _ => cfg

/-- `clusters[0].get("name")` probing of `src/oke_auth.py` lines 214-217: the
first entry's name when the field is a nonempty list whose head is a
mapping. -/
def firstEntryName (f : Option YField) : Option String :=
  match f with
  | some (.list (.obj nm _ _ :: _)) => nm
  | _ => none

/-- Second normalization block (`src/oke_auth.py` lines 207-236): if
`current-context` is still absent, read the first cluster's and first user's
names; when both are truthy, synthesize a context named
`ctx-<cluster>-<user>`, append it, and select it; otherwise select the first
context's truthy name if one exists. -/
def normalizeStep2 (cfg : KubeCfg) : KubeCfg :=
  if cfg.currentContext.isSome then cfg
  else
    let clusterName : Option String := firstEntryName cfg.clusters
    let userName : Option String := firstEntryName cfg.users
    if otruthy clusterName && otruthy userName then
      let cn := clusterName.getD ""
      let un := userName.getD ""
      let ctxName := "ctx-" ++ cn ++ "-" ++ un
      let xs : List YEntry :=
        match cfg.contexts with
        | some (.list xs) => xs
        | _ => []
      { cfg with
        contexts := some (.list (xs ++ [.obj (some ctxName) (some (cn, un)) none])),
        currentContext := some ctxName }
    else
      match cfg.contexts with
      | some (.list (.obj (some n) _ _ :: _)) =>
        if n.isEmpty then cfg else { cfg with currentContext := some n }
      | _ => cfg

/-- The full post-decode current-context normalization
(`src/oke_auth.py` lines 199-236). -/
def normalizeCurrentContext (cfg : KubeCfg) : KubeCfg :=
  normalizeStep2 (normalizeStep1 cfg)

/-- The decode portion of `_load_kubeconfig_for_cluster`
(`src/oke_auth.py` lines 141-236): run the fallback ladder, raise
`ValueError` when no strategy yields a mapping, and otherwise apply the
security-token exec patch and the current-context normalization.  Note that
the source performs no further check: a mapping on which no normalization
rule fires is returned with `current-context` still unset. -/
def decodeBundle (ociCliAuthEnv : Option String) (o : Oracle) (raw : String) :
    Except String KubeCfg :=
  match decodeLadder o raw with
  | none => .error "Invalid kubeconfig content: expected a YAML mapping after decoding"
  | some cfg =>
    .ok (normalizeCurrentContext (maybePatchSecurityTokenExec ociCliAuthEnv cfg))

/-! ## `src/oci_auth.py`: module-level config and signer caches -/

/-- A Python dict with string keys and string values, as an association list
(first binding wins, later `setKey` shadows). -/
def ConfigDict := List (String × String)

instance : DecidableEq ConfigDict := by
  unfold ConfigDict
  infer_instance

/-- Dict key lookup (`config.get(k)` / `k in config`). -/
def lookupKey (d : ConfigDict) (k : String) : Option String :=
  match d with
  | [] => none
  | (k2, v) :: rest => if k2 = k then some v else lookupKey rest k

/-- Dict key assignment (`config[k] = v`). -/
def setKey (d : ConfigDict) (k : String) (v : String) : ConfigDict :=
  (k, v) :: d

/-- An OCI signer as produced by `src/oci_auth.py`: either a
`SecurityTokenSigner` built from a token and a private key, or an API-key
`Signer` built from the config fields. -/
inductive OSigner
  | securityToken (token : String) (keyPem : String)
  | apiKey (tenancy user fingerprint keyFile : String) (passPhrase : Option String)
deriving DecidableEq

/-- The mutable module-level globals `_cached_config` / `_cached_signer` of
`src/oci_auth.py`. -/
structure OciAuthState where
  cachedConfig : Option ConfigDict
  cachedSigner : Option OSigner
deriving DecidableEq

/-- The environment one call of `src/oci_auth.py` runs in:
`oci.config.from_file` (`none` = exception), filesystem existence and reads
(`none` = read raised), private-key parsing, and whether the
`oci.signer.Signer` constructor succeeds. -/
structure OciAuthEnv where
  fromFile : Option ConfigDict
  fileExists : String → Bool
  readFile : String → Option String
  privKeyParses : String → Bool
  apiKeySignerOk : Bool

/-- `get_config` of `src/oci_auth.py` (lines 11-47): return the cached config
if present; otherwise load from file — on failure return an empty dict
WITHOUT caching it — then read the security token into the config when the
config references an existing token file, cache, and return. -/
def getConfig (st : OciAuthState) (e : OciAuthEnv) : ConfigDict × OciAuthState :=
  match st.cachedConfig with
  | some c => (c, st)
  | none =>
    match e.fromFile with
    | none => ([], st)
    | some config0 =>
      let config :=
        match lookupKey config0 "security_token_file" with
        | some tokenPath =>
          if e.fileExists tokenPath then
            match e.readFile tokenPath with
            | some content => setKey config0 "security_token" (pyStrip content)
            | none => config0
          else config0
        | none => config0
      (config, { st with cachedConfig := some config })

/-- The API-key branch of `get_signer` (`src/oci_auth.py` lines 79-98):
require `tenancy`, `user`, `fingerprint`, `key_file`; build the signer when
the SDK constructor succeeds, caching it; return `none` (uncached) otherwise. -/
def getSignerApiKeyBranch (st : OciAuthState) (e : OciAuthEnv) (config : ConfigDict) :
    Option OSigner × OciAuthState :=
  match lookupKey config "tenancy", lookupKey config "user",
        lookupKey config "fingerprint", lookupKey config "key_file" with
  | some t, some u, some f, some kf =>
    if e.apiKeySignerOk then
      let s := OSigner.apiKey t u f kf (lookupKey config "pass_phrase")
      (some s, { st with cachedSigner := some s })
    else (none, st)
  | _, _, _, _ => (none, st)

/-- `get_signer` of `src/oci_auth.py` (lines 49-98): return the cached signer
if present; else, when the config names an existing security-token file, read
the token and the private key and build a `SecurityTokenSigner` (any failure
— missing `key_file` key, unreadable file, unparseable key — returns `None`
uncached); otherwise fall through to the API-key branch. -/
def getSigner (st : OciAuthState) (e : OciAuthEnv) (config : ConfigDict) :
    Option OSigner × OciAuthState :=
  match st.cachedSigner with
  | some s => (some s, st)
  | none =>
    match lookupKey config "security_token_file" with
    | some tokenPath =>
      if e.fileExists tokenPath then
        match e.readFile tokenPath with
        | none => (none, st)
        | some token =>
          match lookupKey config "key_file" with
          | none => (none, st)
          | some keyPath =>
            match e.readFile keyPath with
            | none => (none, st)
            | some keyPem =>
              if e.privKeyParses keyPem then
                let s := OSigner.securityToken (pyStrip token) keyPem
                (some s, { st with cachedSigner := some s })
              else (none, st)
      else getSignerApiKeyBranch st e config
    | none => getSignerApiKeyBranch st e config

/-! ## `src/oke_auth.py`: bundle cache, endpoint resolution, load flow -/

/-- The SDK constant `CreateClusterKubeconfigContentDetails.ENDPOINT_PUBLIC_ENDPOINT`. -/
def ENDPOINT_PUBLIC : String := "PUBLIC_ENDPOINT"

/-- The SDK constant `CreateClusterKubeconfigContentDetails.ENDPOINT_PRIVATE_ENDPOINT`. -/
def ENDPOINT_PRIVATE : String := "PRIVATE_ENDPOINT"

/-- `_resolve_endpoint` of `src/oke_auth.py` (lines 65-86): apply the
`OKE_ENDPOINT` environment override only when no endpoint was passed, default
to the public constant, and normalize the human-friendly spellings. -/
def resolveEndpoint (okeEndpointEnv : Option String) (endpoint : Option String) :
    String :=
  let endpoint :=
    match endpoint with
    | none => if otruthy okeEndpointEnv then okeEndpointEnv else none
    | some e => some e
  match endpoint with
  | none => ENDPOINT_PUBLIC
  | some e =>
    let u := upperStr (pyStrip e)
    if u = "PUBLIC" || u = "PUBLIC_ENDPOINT" then ENDPOINT_PUBLIC
    else if u = "PRIVATE" || u = "PRIVATE_ENDPOINT" then ENDPOINT_PRIVATE
    else e

/-- `str(token_version)` for the cache key: Python renders `None` as "None". -/
def pyStr : Option String → String
  | some s => s
  | none => "None"

/-- A `_CFG_CACHE` key: `(cluster_id, str(endpoint), str(token_version))`. -/
def CacheKey := String × String × String

instance : DecidableEq CacheKey := by
  unfold CacheKey
  infer_instance

/-- The `_CFG_CACHE` mapping of `src/oke_auth.py` line 25: keys to
`(cfg_dict, expires_at)` entries.  The association list is consulted
first-binding-first, so consing a new binding models dict overwrite. -/
structure CfgCache where
  entries : List (CacheKey × KubeCfg × Int)
deriving DecidableEq

/-- The empty `_CFG_CACHE`. -/
def emptyCfgCache : CfgCache := ⟨[]⟩

/-- First matching binding of a cache key. -/
def cacheLookup : List (CacheKey × KubeCfg × Int) → CacheKey → Option (KubeCfg × Int)
  | [], _ => none
  | (k2, v) :: rest, k => if k2 = k then some v else cacheLookup rest k

/-- The cache read of `src/oke_auth.py` lines 105-109: an entry is served
only while `expires_at > now`. -/
def cfgCacheGet (st : CfgCache) (k : CacheKey) (now : Int) : Option KubeCfg :=
  match cacheLookup st.entries k with
  | some (cfg, expiresAt) => if now < expiresAt then some cfg else none
  | none => none

/-- The cache write `_CFG_CACHE[cache_key] = (cfg, time.time() + ttl)` of
`src/oke_auth.py` line 243. -/
def cfgCachePut (st : CfgCache) (k : CacheKey) (cfg : KubeCfg) (expiresAt : Int) :
    CfgCache :=
  ⟨(k, cfg, expiresAt) :: st.entries⟩

/-- The expiration clamp of `src/oke_auth.py` line 123:
`max(300, min(expiration, 24 * 3600))`. -/
def clampExpiration (e : Int) : Int :=
  max 300 (min e (24 * 3600))

/-- The cache TTL derivation of `src/oke_auth.py` line 241:
`max(300, min(int(expiration or 3600) // 6, 1200))`, applied to the
already-clamped expiration (Python `//` is floor division, `Int.fdiv`). -/
def deriveCacheTtl (clamped : Option Int) : Int :=
  max 300 (min (Int.fdiv (pyOrInt clamped 3600) 6) 1200)

/-- The `CreateClusterKubeconfigContentDetails` payload built at
`src/oke_auth.py` lines 125-129. -/
structure CreateDetails where
  endpoint : String
  tokenVersion : Option String
  expiration : Option Int
deriving DecidableEq

/-- The environment of one `_load_kubeconfig_for_cluster` call: environment
variables, the parsing oracle, the raw text returned by the control API's
`create_kubeconfig` call (with `exchangeOk = false` when that call raises),
and whether `load_kube_config_from_dict` accepts a given mapping. -/
structure FlowEnv where
  okeEndpointEnv : Option String
  ociCliAuthEnv : Option String
  oracle : Oracle
  exchangeOk : Bool
  rawBundle : String
  k8sLoadOk : KubeCfg → Bool

/-- The observable result of one `_load_kubeconfig_for_cluster` call: the
outcome (the loaded mapping or the raised error), the bundle cache
afterwards, the `oci_auth` module state afterwards, and — when the control
API was called — the details the exchange was invoked with. -/
structure FlowResult where
  outcome : Except String KubeCfg
  cache : CfgCache
  authState : OciAuthState
  exchanged : Option CreateDetails

/-- `_load_kubeconfig_for_cluster` of `src/oke_auth.py` (lines 89-243).
The cache key uses the raw `endpoint` argument (normalization happens only
after the cache check, line 116).  On a hit the cached mapping is loaded and
no exchange happens.  On a miss: load config and signer via `src/oci_auth.py`,
normalize the endpoint, clamp the expiration, call the control API, decode
through the fallback ladder, patch and normalize, load into the Kubernetes
client, and only then store the bundle with the derived TTL.  `now` is the
`time.time()` of the cache check and `storeTime` that of the store. -/
def loadKubeconfigForCluster (e : FlowEnv) (aenv : OciAuthEnv) (ast : OciAuthState)
    (cache : CfgCache) (clusterId : String) (endpoint : String)
    (tokenVersion : Option String) (expiration : Option Int)
    (now storeTime : Int) : FlowResult :=
  let key : CacheKey := (clusterId, endpoint, pyStr tokenVersion)
  match cfgCacheGet cache key now with
  | some cfg =>
    { outcome := if e.k8sLoadOk cfg then .ok cfg else .error "kubeconfig load failed"
      cache := cache, authState := ast, exchanged := none }
  | none =>
    let cs := getConfig ast aenv
    let ss := getSigner cs.2 aenv cs.1
    let ep := resolveEndpoint e.okeEndpointEnv (some endpoint)
    let clamped := expiration.map clampExpiration
    let details : CreateDetails := ⟨ep, tokenVersion, clamped⟩
    let rest : Except String KubeCfg × CfgCache :=
      if e.exchangeOk then
        match decodeLadder e.oracle e.rawBundle with
        | none =>
          (.error "Invalid kubeconfig content: expected a YAML mapping after decoding",
           cache)
        | some cfg0 =>
          let cfg2 := normalizeCurrentContext
            (maybePatchSecurityTokenExec e.ociCliAuthEnv cfg0)
          if e.k8sLoadOk cfg2 then
            (.ok cfg2,
             cfgCachePut cache key cfg2 (storeTime + deriveCacheTtl clamped))
          else (.error "kubeconfig load failed", cache)
      else (.error "exchange failed", cache)
    { outcome := rest.1, cache := rest.2, authState := ss.2, exchanged := some details }

/-! ## `src/oke_mcp_server/auth.py`: identity resolution and client cache -/

/-- The four identity mechanisms of §4.1 / `get_container_engine_client`. -/
inductive IdentityMode
  | resourcePrincipal
  | instancePrincipal
  | securityToken
  | userAPIKey
deriving DecidableEq

/-- The OCI config file as loaded by `_load_oci_config`
(`src/oke_mcp_server/auth.py` lines 35-59); `none` fields are absent (or
present with a falsy value). -/
structure LoadedCfg where
  region : Option String
  securityTokenFile : Option String
  delegationTokenFile : Option String
  keyFile : Option String
  passPhrase : Option String
deriving DecidableEq

/-- The environment snapshot one `get_container_engine_client` call sees:
settings fields, environment variables, the loaded config (`none` = no file
or load failure, i.e. the empty dict), whether the resource-principal /
instance-principal SDK signer constructors succeed and which region
attribute the built signer carries, and the filesystem and key-parsing
behavior used by `_build_security_token_signer_from_config`. -/
structure McpEnv where
  settingsOciCliAuth : Option String
  envOciCliAuth : Option String
  settingsRegion : Option String
  envOciRegion : Option String
  envOciCliRegion : Option String
  loadedConfig : Option LoadedCfg
  rpVersionSet : Bool
  rpSignerOk : Bool
  rpSignerRegion : Option String
  ipSignerOk : Bool
  ipSignerRegion : Option String
  envSecurityTokenFile : Option String
  envKeyFile : Option String
  envKeyPassphrase : Option String
  expandUser : String → String
  fileExists : String → Bool
  readFile : String → Option String
  privKeyLoads : String → Bool

/-- `_resolve_auth` (`src/oke_mcp_server/auth.py` lines 15-23), minus the
environment-variable write-back (which nothing later in the call reads):
explicit argument, else settings, else environment. -/
def resolveAuth (e : McpEnv) (auth : Option String) : Option String :=
  match auth with
  | some a => some a
  | none => pyOr e.settingsOciCliAuth e.envOciCliAuth

/-- `_infer_region` (`src/oke_mcp_server/auth.py` lines 25-33): settings,
then `OCI_REGION`, then the given config's `region`, then `OCI_CLI_REGION`;
the empty result stands for the empty string the source returns. -/
def inferRegion (e : McpEnv) (configRegion : Option String) : Option String :=
  pyOr e.settingsRegion (pyOr e.envOciRegion (pyOr configRegion e.envOciCliRegion))

/-- The `region` binding of `_try_resource_principals`
(`src/oke_mcp_server/auth.py` line 105): `OCI_REGION` else the signer's own
`region` attribute; this is the only key `cfg_rp` can carry. -/
def rpCfgRegion (e : McpEnv) : Option String :=
  pyOr e.envOciRegion e.rpSignerRegion

/-- `_try_resource_principals` (`src/oke_mcp_server/auth.py` lines 100-110):
`none` when the `OCI_RESOURCE_PRINCIPAL_VERSION` signal is absent or the
signer constructor raises (the exception is only logged); otherwise the
`cfg_rp` region. -/
def tryResourcePrincipals (e : McpEnv) : Option (Option String) :=
  if !e.rpVersionSet then none
  else if e.rpSignerOk then some (rpCfgRegion e)
  else none

/-- The `region` binding of `_try_instance_principals`
(`src/oke_mcp_server/auth.py` line 94). -/
def ipCfgRegion (e : McpEnv) : Option String :=
  pyOr e.envOciRegion e.ipSignerRegion

/-- `_try_instance_principals` (`src/oke_mcp_server/auth.py` lines 91-98). -/
def tryInstancePrincipals (e : McpEnv) : Option (Option String) :=
  if e.ipSignerOk then some (ipCfgRegion e) else none

/-- The lowercased membership test
`auth.lower() in {"instance_principals", "instance-principals", "ip"}`
guarded by `auth`'s truthiness (`src/oke_mcp_server/auth.py` line 136). -/
def authIsInstancePrincipals (auth : Option String) : Bool :=
  match auth with
  | some a =>
    if a.isEmpty then false
    else
      let l := lowerStr a
      l = "instance_principals" || l = "instance-principals" || l = "ip"
  | none => false

/-- `(auth and auth.lower() == "security_token")` (`src/oke_mcp_server/auth.py`
line 148). -/
def authIsSecurityToken (auth : Option String) : Bool :=
  match auth with
  | some a => if a.isEmpty then false else lowerStr a = "security_token"
  | none => false

/-- `needs_token` (`src/oke_mcp_server/auth.py` lines 148-150): the explicit
override, or a security-token / delegation-token file referenced by the
loaded config. -/
def needsToken (e : McpEnv) (auth : Option String) : Bool :=
  authIsSecurityToken auth
    || otruthy (e.loadedConfig.bind LoadedCfg.securityTokenFile)
    || otruthy (e.loadedConfig.bind LoadedCfg.delegationTokenFile)

/-- A built security-token signer (token text and key path), as produced by
`_build_security_token_signer_from_config`. -/
structure STSigner where
  token : String
  keyPath : String
deriving DecidableEq

/-- `_build_security_token_signer_from_config` (`src/oke_mcp_server/auth.py`
lines 64-88): token and key paths from config or environment, both required,
both must exist after `~`-expansion, the token file must read, and the
private key must parse; any failure raises (modelled as `none`). -/
def buildSecurityTokenSigner (e : McpEnv) : Option STSigner :=
  let tokenFile := pyOr (e.loadedConfig.bind LoadedCfg.securityTokenFile)
    e.envSecurityTokenFile
  let keyFile := pyOr (e.loadedConfig.bind LoadedCfg.keyFile) e.envKeyFile
  if !otruthy tokenFile then none
  else if !otruthy keyFile then none
  else
    let tokenPath := e.expandUser (tokenFile.getD "")
    let keyPath := e.expandUser (keyFile.getD "")
    if !e.fileExists tokenPath then none
    else if !e.fileExists keyPath then none
    else
      match e.readFile tokenPath with
      | none => none
      | some token =>
        if e.privKeyLoads keyPath then some ⟨pyStrip token, keyPath⟩
        else none

/-- The errors `get_container_engine_client` can raise (each constructor
stands for one `RuntimeError` message of `src/oke_mcp_server/auth.py`). -/
inductive RErr
  | regionRequiredRP      -- "Region is required for Resource Principals. Set OCI_REGION."
  | ipSignerInitFailed    -- "Failed to initialize Instance Principals signer"
  | regionRequiredIP      -- "Region is required for Instance Principals. Set OCI_REGION."
  | stSignerInitFailed    -- "SecurityTokenSigner init failed: ..."
  | regionRequiredST      -- "Region is required in config/env for security_token auth. ..."
  | noConfig              -- "No OCI config found and no principal signer available. ..."
deriving DecidableEq

/-- A successfully resolved control client: the identity mode it is bound to
and the region of the config dict it was constructed with (`none` for the
user-API-key path when the config file itself carries no region). -/
structure Resolved where
  mode : IdentityMode
  region : Option String
deriving DecidableEq

/-- The outcome of one `get_container_engine_client` call together with the
list of identity modes whose signer/client construction was actually
attempted, in order. -/
structure ResolveOut where
  attempts : List IdentityMode
  outcome : Except RErr Resolved
deriving DecidableEq

/-- The security-token / user-API-key tail of `get_container_engine_client`
(`src/oke_mcp_server/auth.py` lines 145-167). -/
def resolveTail (e : McpEnv) (auth : Option String) : ResolveOut :=
  if needsToken e auth then
    match buildSecurityTokenSigner e with
    | none => ⟨[.securityToken], .error .stSignerInitFailed⟩
    | some _ =>
      match inferRegion e (e.loadedConfig.bind LoadedCfg.region) with
      | some r =>
        if r.isEmpty then ⟨[.securityToken], .error .regionRequiredST⟩
        else ⟨[.securityToken], .ok ⟨.securityToken, some r⟩⟩
      | none => ⟨[.securityToken], .error .regionRequiredST⟩
  else
    match e.loadedConfig with
    | none => ⟨[], .error .noConfig⟩
    | some c => ⟨[.userAPIKey], .ok ⟨.userAPIKey, c.region⟩⟩

/-- The instance-principal branch and below
(`src/oke_mcp_server/auth.py` lines 136-167). -/
def resolveFromInstancePrincipals (e : McpEnv) (auth : Option String) : ResolveOut :=
  if authIsInstancePrincipals auth then
    match tryInstancePrincipals e with
    | none => ⟨[.instancePrincipal], .error .ipSignerInitFailed⟩
    | some cfgIpRegion =>
      match pyOr (inferRegion e (e.loadedConfig.bind LoadedCfg.region))
          (inferRegion e cfgIpRegion) with
      | some r =>
        if r.isEmpty then ⟨[.instancePrincipal], .error .regionRequiredIP⟩
        else ⟨[.instancePrincipal], .ok ⟨.instancePrincipal, some r⟩⟩
      | none => ⟨[.instancePrincipal], .error .regionRequiredIP⟩
  else resolveTail e auth

/-- `get_container_engine_client` (`src/oke_mcp_server/auth.py` lines
115-167), as a pure resolution from the environment snapshot: resource
principals first (falling through, with only a logged warning, when the
signer constructor fails), then instance principals on explicit request,
then security token, then the user-API-key config default.  Client
construction itself is opaque and always succeeds in this model. -/
def getContainerEngineClient (e : McpEnv) (auth0 : Option String) : ResolveOut :=
  let auth := resolveAuth e auth0
  match tryResourcePrincipals e with
  | some cfgRpRegion =>
    (match pyOr (inferRegion e (e.loadedConfig.bind LoadedCfg.region))
        (inferRegion e cfgRpRegion) with
     | some r =>
       if r.isEmpty then ⟨[.resourcePrincipal], .error .regionRequiredRP⟩
       else ⟨[.resourcePrincipal], .ok ⟨.resourcePrincipal, some r⟩⟩
     | none => ⟨[.resourcePrincipal], .error .regionRequiredRP⟩)
  | none =>
    let tail := resolveFromInstancePrincipals e auth
    if e.rpVersionSet then ⟨.resourcePrincipal :: tail.attempts, tail.outcome⟩
    else tail

/-- The combined region the resource-principal branch checks
(`src/oke_mcp_server/auth.py` line 130). -/
def rpCombinedRegion (e : McpEnv) : Option String :=
  pyOr (inferRegion e (e.loadedConfig.bind LoadedCfg.region))
    (inferRegion e (rpCfgRegion e))

/-- The `lru_cache` wrapper of `get_container_engine_client`, keyed on the
raw `auth` argument; exceptions are not memoized.  The `Bool` records
whether the resolution ladder actually ran (a cache miss). -/
structure CEFetch where
  result : Except RErr Resolved
  cache : List (Option String × Resolved)
  ranResolver : Bool

/-- First matching binding of an auth key in the client cache. -/
def ceCacheLookup : List (Option String × Resolved) → Option String → Option Resolved
  | [], _ => none
  | (k2, v) :: rest, k => if k2 = k then some v else ceCacheLookup rest k

/-- One call of the cached `get_container_engine_client`
(`src/oke_mcp_server/auth.py` line 115, `@lru_cache(maxsize=8)`): serve the
memoized client for an identical `auth` argument, otherwise run the
resolution ladder and memoize only successes. -/
def getContainerEngineClientCached (cache : List (Option String × Resolved))
    (e : McpEnv) (auth0 : Option String) : CEFetch :=
  match ceCacheLookup cache auth0 with
  | some r => ⟨.ok r, cache, false⟩
  | none =>
    match (getContainerEngineClient e auth0).outcome with
    | .ok r => ⟨.ok r, (auth0, r) :: cache, true⟩
    | .error err => ⟨.error err, cache, true⟩

/-- The shared mutable caches the two auth modules hold: the `lru_cache` of
control clients (`src/oke_mcp_server/auth.py`) and the credential-bundle
cache `_CFG_CACHE` (`src/oke_auth.py`). -/
structure AuthCaches where
  ceClients : List (Option String × Resolved)
  cfgCache : CfgCache

/-- `invalidate_auth_cache` (`src/oke_mcp_server/auth.py` lines 238-243):
`get_container_engine_client.cache_clear()` — it clears only the control
client cache and touches nothing else. -/
def invalidateAuthCache (s : AuthCaches) : AuthCaches :=
  { s with ceClients := [] }

/-! ## Theorems -/

/-- Helper: the `fdiv`/`fmod` characterization of `Int.fdiv t 6`, packaged
for `omega`. -/
theorem fdiv6_spec (t : Int) :
    t.fmod 6 + 6 * t.fdiv 6 = t ∧ 0 ≤ t.fmod 6 ∧ t.fmod 6 < 6 :=
  ⟨Int.fmod_add_fdiv t 6, Int.fmod_nonneg' t (by decide),
   Int.fmod_lt_of_pos t (by decide)⟩

/-- Helper: deriving the cache TTL from the already clamped expiration
agrees, for every requested TTL, with clamping `t // 6` to `[300, 1200]`
directly. -/
theorem deriveCacheTtl_clamped (t : Int) :
    deriveCacheTtl (some (clampExpiration t))
      = max 300 (min (Int.fdiv t 6) 1200) := by
  have hne : clampExpiration t ≠ 0 := by
    unfold clampExpiration
    omega
  have h0 : pyOrInt (some (clampExpiration t)) 3600 = clampExpiration t := by
    simp [pyOrInt, hne]
  unfold deriveCacheTtl
  rw [h0]
  obtain ⟨ha1, ha2, ha3⟩ := fdiv6_spec (clampExpiration t)
  obtain ⟨hb1, hb2, hb3⟩ := fdiv6_spec t
  unfold clampExpiration at *
  omega

/-- C8: for every credential request, the requested TTL is clamped to
`[300, 86400]` before being sent to the control API's
create-cluster-credentials call: the exchange is always invoked with
`expiration = max(300, min(t, 86400))`, which raises a value below 300 to
300, lowers a value above 86400 to 86400, and leaves a value inside the
interval unchanged. -/
theorem c8_expiration_clamped (fe : FlowEnv) (aenv : OciAuthEnv)
    (ast : OciAuthState) (cid ep : String) (tv : Option String)
    (t now storeTime : Int) :
    (loadKubeconfigForCluster fe aenv ast emptyCfgCache cid ep tv (some t)
        now storeTime).exchanged
      = some ⟨resolveEndpoint fe.okeEndpointEnv (some ep), tv,
              some (clampExpiration t)⟩
    ∧ clampExpiration t
      = if t < 300 then 300 else if 86400 < t then 86400 else t := by
  constructor
  · rfl
  · unfold clampExpiration
    omega

/-- C5: the cache entry's TTL is derived, not copied: an entry stored for a
request with credential TTL `t` carries TTL `clamp(t // 6, 300, 1200)`
seconds; concretely, for `t = 3600` the derived TTL is 600, the entry is
served at any time strictly before 600 seconds have elapsed since the store,
and is a miss at any time from 600 seconds on. -/
theorem c5_cache_ttl_derived (st : CfgCache) (k : CacheKey) (cfg : KubeCfg)
    (t t0 now : Int) :
    deriveCacheTtl (some (clampExpiration t))
        = max 300 (min (Int.fdiv t 6) 1200)
    ∧ deriveCacheTtl (some (clampExpiration 3600)) = 600
    ∧ (now < t0 + 600 →
        cfgCacheGet (cfgCachePut st k cfg
            (t0 + deriveCacheTtl (some (clampExpiration 3600)))) k now
          = some cfg)
    ∧ (t0 + 600 ≤ now →
        cfgCacheGet (cfgCachePut st k cfg
            (t0 + deriveCacheTtl (some (clampExpiration 3600)))) k now
          = none) := by
  have h600 : deriveCacheTtl (some (clampExpiration 3600)) = 600 := by decide
  refine ⟨deriveCacheTtl_clamped t, h600, ?_, ?_⟩
  · intro hlt
    rw [h600]
    have hl : cacheLookup ((k, cfg, t0 + 600) :: st.entries) k
        = some (cfg, t0 + 600) := by simp [cacheLookup]
    simp [cfgCacheGet, cfgCachePut, hl, hlt]
  · intro hge
    rw [h600]
    have hl : cacheLookup ((k, cfg, t0 + 600) :: st.entries) k
        = some (cfg, t0 + 600) := by simp [cacheLookup]
    simp [cfgCacheGet, cfgCachePut, hl]
    omega

/-- Witness for C5 at `t = 100`, `t0 = 0`, `now = 599` / re-applied at
`now = 600`. -/
theorem c5_cache_ttl_derived_witness :
    deriveCacheTtl (some (clampExpiration 100)) = max 300 (min (Int.fdiv 100 6) 1200)
    ∧ cfgCacheGet (cfgCachePut emptyCfgCache ("c", "e", "v") emptyKubeCfg
        (0 + deriveCacheTtl (some (clampExpiration 3600)))) ("c", "e", "v") 599
        = some emptyKubeCfg
    ∧ cfgCacheGet (cfgCachePut emptyCfgCache ("c", "e", "v") emptyKubeCfg
        (0 + deriveCacheTtl (some (clampExpiration 3600)))) ("c", "e", "v") 600
        = none :=
  ⟨(c5_cache_ttl_derived emptyCfgCache ("c", "e", "v") emptyKubeCfg 100 0 599).1,
   (c5_cache_ttl_derived emptyCfgCache ("c", "e", "v") emptyKubeCfg 100 0 599).2.2.1
     (by decide),
   (c5_cache_ttl_derived emptyCfgCache ("c", "e", "v") emptyKubeCfg 100 0 600).2.2.2
     (by decide)⟩

/-- C2: for every input text, decode tries exactly the four strategies in the
stated order — direct parse; quote-strip (then un-escape) retry; JSON-unquote
(then un-escape) retry; wholesale un-escape retry — stopping at the first
that yields a mapping; and when no strategy yields a mapping, decode fails
with the `ValueError` and returns no bundle. -/
theorem c2_decode_four_strategies (o : Oracle) (raw : String)
    (ociCliAuthEnv : Option String) :
    (decodeLadder o raw
      = match decodeStrat1 o raw with
        | some c => some c
        | none =>
          match decodeStrat2 o raw with
          | some c => some c
          | none =>
            match decodeStrat3 o raw with
            | some c => some c
            | none => decodeStrat4 o raw)
    ∧ (decodeLadder o raw = none →
        decodeBundle ociCliAuthEnv o raw
          = .error "Invalid kubeconfig content: expected a YAML mapping after decoding") := by
  constructor
  · cases h1 : tryParseYaml o raw with
    | some c =>
      unfold decodeLadder decodeStrat1 decodeStrat2 decodeStrat3 decodeStrat4
      rw [h1]
    | none =>
      unfold decodeLadder decodeStrat1 decodeStrat2 decodeStrat3 decodeStrat4
      rw [h1]
  · intro h
    unfold decodeBundle
    rw [h]

/-- An oracle on which every library call fails. -/
def failOracle : Oracle := ⟨fun _ => none, fun _ => none, fun _ => none⟩

/-- Witness for C2: on an oracle where all parses fail, decode of `"abc"`
fails with the `ValueError`. -/
theorem c2_decode_four_strategies_witness :
    decodeBundle none failOracle "abc"
      = .error "Invalid kubeconfig content: expected a YAML mapping after decoding" :=
  (c2_decode_four_strategies failOracle "abc" none).2 (by decide)

/-- Helper: a nonempty string is not `isEmpty`. -/
theorem isEmpty_false_of_ne (s : String) (h : s ≠ "") : s.isEmpty = false := by
  cases he : s.isEmpty
  · rfl
  · exact absurd ((String.isEmpty_iff s).mp he) h

/-- An oracle whose only successful parse maps the text `"x"` to the empty
bundle; all other library calls fail. -/
def emptyBundleOracle : Oracle :=
  ⟨fun s => if s = "x" then some (.map emptyKubeCfg) else none,
   fun _ => none, fun _ => none⟩

/-- Counterexample to C3 as stated: decoding a successfully parsed mapping
with zero clusters, zero users, and zero contexts does not fail with any
DecodeError — `decodeBundle` returns the bundle, still without a current
context.  (No "no usable context" check exists in the source.) -/
theorem c3_counterexample :
    decodeBundle none emptyBundleOracle "x" = .ok emptyKubeCfg
    ∧ emptyKubeCfg.currentContext = none := by
  constructor
  · decide
  · rfl

/-- C3 (amended): for every successfully parsed mapping on which no
normalization rule can establish a current context, decode does not fail —
it returns the bundle with `current-context` still unset (any subsequent
failure belongs to the downstream kubeconfig loader, outside the decoder);
in particular the zero-clusters/zero-users/zero-contexts bundle is returned
unchanged. -/
theorem c3_contextless_bundle_returned (ociCliAuthEnv : Option String)
    (o : Oracle) (raw : String) (cfg : KubeCfg)
    (h1 : decodeLadder o raw = some cfg)
    (h2 : (normalizeCurrentContext
        (maybePatchSecurityTokenExec ociCliAuthEnv cfg)).currentContext = none) :
    (∃ c, decodeBundle ociCliAuthEnv o raw = .ok c ∧ c.currentContext = none)
    ∧ normalizeCurrentContext emptyKubeCfg = emptyKubeCfg := by
  refine ⟨⟨normalizeCurrentContext (maybePatchSecurityTokenExec ociCliAuthEnv cfg),
    ?_, h2⟩, rfl⟩
  unfold decodeBundle
  rw [h1]

/-- Witness for C3 (amended), at the empty bundle parsed from `"x"`. -/
theorem c3_contextless_bundle_returned_witness :
    (∃ c, decodeBundle none emptyBundleOracle "x" = .ok c
          ∧ c.currentContext = none)
    ∧ normalizeCurrentContext emptyKubeCfg = emptyKubeCfg :=
  c3_contextless_bundle_returned none emptyBundleOracle "x" emptyKubeCfg
    (by decide) (by decide)

/-- A bundle with three named contexts, no current context, and one named
cluster and one named user. -/
def cfgThreeContexts : KubeCfg :=
  { currentContext := none
    contexts := some (.list [.obj (some "x") none none, .obj (some "y") none none,
                             .obj (some "z") none none])
    clusters := some (.list [.obj (some "c") none none])
    users := some (.list [.obj (some "u") none none]) }

/-- An oracle whose only successful parse maps the text `"t3"` to
`cfgThreeContexts`. -/
def threeCtxOracle : Oracle :=
  ⟨fun s => if s = "t3" then some (.map cfgThreeContexts) else none,
   fun _ => none, fun _ => none⟩

/-- Counterexample to C4 as stated: for this bundle with three context
definitions and no current context, decode does NOT select the first
context's name `"x"` — the cluster/user synthesis rule fires first and
selects the synthesized `"ctx-c-u"`. -/
theorem c4_counterexample :
    (∃ c, decodeBundle none threeCtxOracle "t3" = .ok c
          ∧ c.currentContext = some "ctx-c-u")
    ∧ some "ctx-c-u" ≠ some "x" := by
  refine ⟨⟨normalizeCurrentContext cfgThreeContexts, by decide, by decide⟩, by decide⟩

/-- C4 (amended): (a) for every bundle with exactly one cluster and one user
carrying nonempty names, no contexts (absent key or empty list) and no
current context, normalization synthesizes exactly one context named
`ctx-<cluster>-<user>` (combining the two names) and selects it as current;
(b) for every bundle with three context definitions, the first carrying a
nonempty name, and no current context, normalization selects the first
context's name by list order — PROVIDED the first cluster name and first
user name are not both truthy (the source prefers the synthesized
cluster/user context over existing listed contexts, which the
counterexample exhibits). -/
theorem c4_canonical_shapes :
    (∀ (c u : String) (x1 x2 : Option (String × String))
        (y1 y2 : Option (List String)) (ctxs : Option YField),
      c ≠ "" → u ≠ "" → (ctxs = none ∨ ctxs = some (.list [])) →
      normalizeCurrentContext
          ⟨none, ctxs, some (.list [.obj (some c) x1 y1]),
           some (.list [.obj (some u) x2 y2])⟩
        = ⟨some ("ctx-" ++ c ++ "-" ++ u),
           some (.list [.obj (some ("ctx-" ++ c ++ "-" ++ u)) (some (c, u)) none]),
           some (.list [.obj (some c) x1 y1]),
           some (.list [.obj (some u) x2 y2])⟩)
    ∧ (∀ (n1 : String) (v1 : Option (String × String)) (w1 : Option (List String))
        (e2 e3 : YEntry) (cls usr : Option YField),
      n1 ≠ "" →
      (otruthy (firstEntryName cls) && otruthy (firstEntryName usr)) = false →
      (normalizeCurrentContext
          ⟨none, some (.list [.obj (some n1) v1 w1, e2, e3]), cls, usr⟩).currentContext
        = some n1) := by
  constructor
  · intro c u x1 x2 y1 y2 ctxs hc hu hctx
    have hce : c.isEmpty = false := isEmpty_false_of_ne c hc
    have hue : u.isEmpty = false := isEmpty_false_of_ne u hu
    rcases hctx with h | h <;> subst h <;>
      simp [normalizeCurrentContext, normalizeStep1, normalizeStep2,
            firstEntryName, otruthy, hce, hue]
  · intro n1 v1 w1 e2 e3 cls usr hn hfu
    have hne : n1.isEmpty = false := isEmpty_false_of_ne n1 hn
    have hs1 : normalizeStep1
        ⟨none, some (.list [.obj (some n1) v1 w1, e2, e3]), cls, usr⟩
        = ⟨none, some (.list [.obj (some n1) v1 w1, e2, e3]), cls, usr⟩ := rfl
    unfold normalizeCurrentContext
    rw [hs1]
    simp only [normalizeStep2]
    rw [hfu]
    simp [hne]

/-- Witness for C4 (amended): the one-cluster/one-user shape at
`c = "c"`, `u = "u"`, and the three-context shape with no clusters and no
users. -/
theorem c4_canonical_shapes_witness :
    normalizeCurrentContext
        ⟨none, none, some (.list [.obj (some "c") none none]),
         some (.list [.obj (some "u") none none])⟩
      = ⟨some "ctx-c-u",
         some (.list [.obj (some "ctx-c-u") (some ("c", "u")) none]),
         some (.list [.obj (some "c") none none]),
         some (.list [.obj (some "u") none none])⟩
    ∧ (normalizeCurrentContext
        ⟨none, some (.list [.obj (some "x") none none, .obj (some "y") none none,
                            .obj (some "z") none none]),
         none, none⟩).currentContext = some "x" := by
  constructor
  · have h := c4_canonical_shapes.1 "c" "u" none none none none none
      (by decide) (by decide) (Or.inl rfl)
    simpa using h
  · exact c4_canonical_shapes.2 "x" none none (.obj (some "y") none none)
      (.obj (some "z") none none) none none (by decide) (by decide)

/-- Helper: the character list of one layer of double-quote wrapping. -/
theorem wrapped_toList (E : String) :
    ("\"" ++ E ++ "\"").toList = '"' :: (E.toList ++ ['"']) := rfl

/-- Helper: a double-quote-wrapped text is already stripped. -/
theorem pyStrip_wrapped (E : String) :
    pyStrip ("\"" ++ E ++ "\"") = "\"" ++ E ++ "\"" := by
  have hws : ('"' : Char).isWhitespace = false := rfl
  show String.mk _ = _
  rw [wrapped_toList]
  simp [List.dropWhile_cons, hws]
  exact congrArg String.mk (wrapped_toList E).symm

/-- Helper: the wrapped text begins with a double quote. -/
theorem strBegins_wrapped (E : String) :
    strBegins ("\"" ++ E ++ "\"") "\"" = true := by
  unfold strBegins
  rw [wrapped_toList]
  simp [charsBegin]

/-- Helper: the wrapped text ends with a double quote. -/
theorem strEndsWith_wrapped (E : String) :
    strEndsWith ("\"" ++ E ++ "\"") "\"" = true := by
  unfold strEndsWith
  rw [wrapped_toList]
  simp [charsBegin]

/-- Helper: stripping the outer characters of the wrapped text recovers the
inner text. -/
theorem stripOuterChars_wrapped (E : String) :
    stripOuterChars ("\"" ++ E ++ "\"") = E := by
  unfold stripOuterChars
  rw [wrapped_toList]
  simp

/-- C7: decode is invariant under one layer of double-quote wrapping with
backslash-escaped content: whenever a bundle text `B` parses directly as
mapping `M`, `E` is an escaped form of `B` (un-escaping `E` yields `B`),
and — as observed for this encoding — neither the quoted text nor `E`
itself parses as a mapping, decoding the wrapped text `"..." = quote ++ E
++ quote` succeeds via the quote-strip-and-unescape strategy and yields
exactly the mapping `M` that decoding the unwrapped `B` yields. -/
theorem c7_quote_wrap_invariant (o : Oracle) (B E : String) (M : KubeCfg)
    (h1 : tryParseYaml o B = some M)
    (h2 : o.unicodeEscape E = some B)
    (h3 : tryParseYaml o ("\"" ++ E ++ "\"") = none)
    (h4 : tryParseYaml o E = none) :
    decodeLadder o ("\"" ++ E ++ "\"") = some M
    ∧ decodeLadder o B = some M := by
  constructor
  · unfold decodeLadder
    rw [h3]
    simp only [pyStrip_wrapped, strBegins_wrapped, strEndsWith_wrapped,
      Bool.true_and, Bool.true_or, if_true, stripOuterChars_wrapped]
    rw [h4, h2]
    simp [h1]
  · unfold decodeLadder
    rw [h1]

/-- An oracle realizing the double-quote-plus-escaped-newline encoding for
the bundle text `"a:\n b"` (escaped form `"a:\\n b"`). -/
def c7Oracle : Oracle :=
  ⟨fun s => if s = "a:\n b" then some (.map emptyKubeCfg) else none,
   fun _ => none,
   fun s => if s = "a:\\n b" then some "a:\n b" else none⟩

/-- Witness for C7 at the concrete bundle text `"a:\n b"`. -/
theorem c7_quote_wrap_invariant_witness :
    decodeLadder c7Oracle ("\"" ++ "a:\\n b" ++ "\"") = some emptyKubeCfg
    ∧ decodeLadder c7Oracle "a:\n b" = some emptyKubeCfg :=
  c7_quote_wrap_invariant c7Oracle "a:\n b" "a:\\n b" emptyKubeCfg
    (by decide) (by decide) (by decide) (by decide)

/-- Helper: a successful `getSigner` call always records the returned signer
in the module cache. -/
theorem getSigner_caches (st : OciAuthState) (e : OciAuthEnv) (config : ConfigDict)
    (s : OSigner) (st2 : OciAuthState)
    (h : getSigner st e config = (some s, st2)) :
    st2.cachedSigner = some s := by
  unfold getSigner getSignerApiKeyBranch at h
  repeat' split at h
  all_goals simp_all
  all_goals
    rcases h with ⟨h1, h2⟩
  all_goals
    subst h2
  all_goals
    simp [h1]

/-- C10: the module-level caches of `src/oci_auth.py` are write-once on
success and argument-insensitive afterwards: a failed config load returns
the empty dict without caching (so it is retried); a successful load caches
the returned dict, and every later `get_config` call — under any
environment — returns that identical dict; and once `get_signer` has
returned a signer, every later call returns that same signer for every
config argument and environment. -/
theorem c10_write_once_caches (st : OciAuthState) (e : OciAuthEnv) :
    (st.cachedConfig = none → e.fromFile = none → getConfig st e = ([], st))
    ∧ (∀ (c : ConfigDict) (st2 : OciAuthState), st.cachedConfig = none →
        e.fromFile ≠ none → getConfig st e = (c, st2) →
        st2.cachedConfig = some c ∧ ∀ e2 : OciAuthEnv, getConfig st2 e2 = (c, st2))
    ∧ (∀ (config : ConfigDict) (s : OSigner) (st2 : OciAuthState),
        getSigner st e config = (some s, st2) →
        ∀ (e2 : OciAuthEnv) (config2 : ConfigDict),
          getSigner st2 e2 config2 = (some s, st2)) := by
  refine ⟨?_, ?_, ?_⟩
  · intro hcc hff
    unfold getConfig
    rw [hcc, hff]
  · intro c st2 hcc hff h
    rcases hf : e.fromFile with _ | cfg0
    · exact absurd hf hff
    · unfold getConfig at h
      rw [hcc, hf] at h
      have h1 := congrArg Prod.fst h
      have h2 := congrArg Prod.snd h
      simp at h1 h2
      have hcache : st2.cachedConfig = some c := by
        rw [← h2, ← h1]
      refine ⟨hcache, fun e2 => ?_⟩
      unfold getConfig
      rw [hcache]
  · intro config s st2 h
    have hcache := getSigner_caches st e config s st2 h
    intro e2 config2
    unfold getSigner
    rw [hcache]

/-- The config dict used by the C10 witness. -/
def cfgC10 : ConfigDict :=
  [("tenancy", "t"), ("user", "u"), ("fingerprint", "f"), ("key_file", "k")]

/-- An environment whose config load succeeds with `cfgC10` and whose API-key
signer constructor succeeds. -/
def envC10 : OciAuthEnv :=
  ⟨some cfgC10, fun _ => false, fun _ => none, fun _ => false, true⟩

/-- An environment whose config load fails and whose signer constructors all
fail — used to show cached results ignore the environment. -/
def envFailC10 : OciAuthEnv :=
  ⟨none, fun _ => false, fun _ => none, fun _ => false, false⟩

/-- The signer the C10 witness builds. -/
def sC10 : OSigner := OSigner.apiKey "t" "u" "f" "k" none

/-- Witness for C10: a failed load is not cached; after a successful load the
cached dict is returned even under the failing environment; after a
successful signer build the cached signer is returned even under the failing
environment and the empty config. -/
theorem c10_write_once_caches_witness :
    getConfig ⟨none, none⟩ envFailC10 = ([], ⟨none, none⟩)
    ∧ getConfig ⟨some cfgC10, none⟩ envFailC10 = (cfgC10, ⟨some cfgC10, none⟩)
    ∧ getSigner ⟨some cfgC10, some sC10⟩ envFailC10 []
        = (some sC10, ⟨some cfgC10, some sC10⟩) :=
  ⟨(c10_write_once_caches ⟨none, none⟩ envFailC10).1 rfl rfl,
   ((c10_write_once_caches ⟨none, none⟩ envC10).2.1 cfgC10 ⟨some cfgC10, none⟩
      rfl (by decide) (by decide)).2 envFailC10,
   (c10_write_once_caches ⟨some cfgC10, none⟩ envC10).2.2 cfgC10 sC10
      ⟨some cfgC10, some sC10⟩ (by decide) envFailC10 []⟩

/-- A minimal environment snapshot: no overrides, no signals, no config. -/
def baseMcpEnv : McpEnv :=
  { settingsOciCliAuth := none, envOciCliAuth := none, settingsRegion := none
    envOciRegion := none, envOciCliRegion := none, loadedConfig := none
    rpVersionSet := false, rpSignerOk := false, rpSignerRegion := none
    ipSignerOk := false, ipSignerRegion := none, envSecurityTokenFile := none
    envKeyFile := none, envKeyPassphrase := none, expandUser := fun s => s
    fileExists := fun _ => false, readFile := fun _ => none
    privKeyLoads := fun _ => false }

/-- An environment with the resource-principal signal set but a failing
resource-principal signer constructor, and a loadable user config. -/
def envC1 : McpEnv :=
  { baseMcpEnv with
    rpVersionSet := true
    loadedConfig := some ⟨some "r1", none, none, none, none⟩ }

/-- Counterexample to C1 as stated: with the resource-principal signal
(`OCI_RESOURCE_PRINCIPAL_VERSION`) present but the resource-principal signer
constructor failing, resolution does NOT fail — it silently falls through
and succeeds in the weaker user-API-key mode. -/
theorem c1_counterexample :
    envC1.rpVersionSet = true
    ∧ getContainerEngineClient envC1 none
      = ⟨[.resourcePrincipal, .userAPIKey], .ok ⟨.userAPIKey, some "r1"⟩⟩ := by
  constructor
  · rfl
  · decide

/-- Helper: the full resource-principal branch equation. -/
theorem rpBranchEq (e : McpEnv) (auth0 : Option String)
    (h1 : e.rpVersionSet = true) (h2 : e.rpSignerOk = true) :
    getContainerEngineClient e auth0
      = ⟨[.resourcePrincipal],
         match rpCombinedRegion e with
         | some r => if r.isEmpty then .error .regionRequiredRP
                     else .ok ⟨.resourcePrincipal, some r⟩
         | none => .error .regionRequiredRP⟩ := by
  have ht : tryResourcePrincipals e = some (rpCfgRegion e) := by
    unfold tryResourcePrincipals
    rw [h1, h2]
    rfl
  unfold getContainerEngineClient rpCombinedRegion
  rw [ht]
  rcases hr : pyOr (inferRegion e (e.loadedConfig.bind LoadedCfg.region))
      (inferRegion e (rpCfgRegion e)) with _ | r
  · simp [hr]
  · simp [hr]
    split <;> rfl

/-- Helper: when the resource-principal path yields no signer, resolution is
the instance-principal ladder and below, with the resource-principal attempt
recorded when the signal was set. -/
theorem noRpOutcome (e : McpEnv) (auth0 : Option String)
    (h : tryResourcePrincipals e = none) :
    (getContainerEngineClient e auth0).outcome
      = (resolveFromInstancePrincipals e (resolveAuth e auth0)).outcome := by
  unfold getContainerEngineClient
  rw [h]
  cases hb : e.rpVersionSet <;> simp [hb]

/-- C1 (amended): when the resource-principal signal is present AND the
resource-principal signer is successfully built, resolution attempts only
the resource-principal mode — no weaker mode is tried — and either returns
the resource-principal client or fails on the missing region; but when the
signer build fails, the resolver falls through to the remaining ladder
instead of failing (the counterexample). -/
theorem c1_rp_priority (e : McpEnv) (auth0 : Option String)
    (h1 : e.rpVersionSet = true) (h2 : e.rpSignerOk = true) :
    getContainerEngineClient e auth0
      = ⟨[.resourcePrincipal],
         match rpCombinedRegion e with
         | some r => if r.isEmpty then .error .regionRequiredRP
                     else .ok ⟨.resourcePrincipal, some r⟩
         | none => .error .regionRequiredRP⟩ :=
  rpBranchEq e auth0 h1 h2

/-- An environment where the resource-principal signer builds and
`OCI_REGION` is set. -/
def envC1rp : McpEnv :=
  { baseMcpEnv with
    rpVersionSet := true
    rpSignerOk := true
    envOciRegion := some "rr" }

/-- Witness for C1 (amended) at a concrete resource-principal environment. -/
theorem c1_rp_priority_witness :
    getContainerEngineClient envC1rp none
      = ⟨[.resourcePrincipal], .ok ⟨.resourcePrincipal, some "rr"⟩⟩ :=
  (c1_rp_priority envC1rp none rfl rfl).trans (by decide)

/-- The combined region the instance-principal branch checks
(`src/oke_mcp_server/auth.py` line 140). -/
def ipCombinedRegion (e : McpEnv) : Option String :=
  pyOr (inferRegion e (e.loadedConfig.bind LoadedCfg.region))
    (inferRegion e (ipCfgRegion e))

/-- An environment that selects security-token mode (token and key files
configured and readable) but has no region from any source. -/
def envC6 : McpEnv :=
  { baseMcpEnv with
    loadedConfig := some ⟨none, some "tok", none, some "key", none⟩
    fileExists := fun _ => true
    readFile := fun _ => some "TOKEN"
    privKeyLoads := fun _ => true }

/-- Counterexample to C6 as stated: in security-token mode — not one of the
two principal modes — the absence of a region is also fatal: the resolver
raises the region-required error instead of proceeding. -/
theorem c6_counterexample :
    getContainerEngineClient envC6 none
      = ⟨[.securityToken], .error .regionRequiredST⟩ := by
  decide

/-- C6 (amended): a region is mandatory for the resource-principal,
instance-principal, AND security-token modes — absence (no truthy region
from any override, environment, signer, or configuration source) is a fatal
configuration error for all three; only the user-API-key path constructs the
client without any region check (the region checks in the source are the
only ones; client construction itself is opaque here). -/
theorem c6_region_mandatory_modes (e : McpEnv) (auth0 : Option String) :
    (e.rpVersionSet = true → e.rpSignerOk = true →
      otruthy (rpCombinedRegion e) = false →
      (getContainerEngineClient e auth0).outcome = .error .regionRequiredRP)
    ∧ (tryResourcePrincipals e = none →
       authIsInstancePrincipals (resolveAuth e auth0) = true →
       e.ipSignerOk = true →
       otruthy (ipCombinedRegion e) = false →
       (getContainerEngineClient e auth0).outcome = .error .regionRequiredIP)
    ∧ (∀ sg : STSigner, tryResourcePrincipals e = none →
       authIsInstancePrincipals (resolveAuth e auth0) = false →
       needsToken e (resolveAuth e auth0) = true →
       buildSecurityTokenSigner e = some sg →
       otruthy (inferRegion e (e.loadedConfig.bind LoadedCfg.region)) = false →
       (getContainerEngineClient e auth0).outcome = .error .regionRequiredST)
    ∧ (∀ c : LoadedCfg, tryResourcePrincipals e = none →
       authIsInstancePrincipals (resolveAuth e auth0) = false →
       needsToken e (resolveAuth e auth0) = false →
       e.loadedConfig = some c →
       (getContainerEngineClient e auth0).outcome = .ok ⟨.userAPIKey, c.region⟩) := by
  refine ⟨?_, ?_, ?_, ?_⟩
  · intro h1 h2 h3
    rw [rpBranchEq e auth0 h1 h2]
    rcases hc : rpCombinedRegion e with _ | r
    · rfl
    · rw [hc] at h3
      simp [otruthy] at h3
      simp [hc, h3]
  · intro h0 h1 h2 h3
    rw [noRpOutcome e auth0 h0]
    have ht : tryInstancePrincipals e = some (ipCfgRegion e) := by
      simp [tryInstancePrincipals, h2]
    unfold resolveFromInstancePrincipals
    rw [h1, ht]
    unfold ipCombinedRegion at h3
    rcases hc : pyOr (inferRegion e (e.loadedConfig.bind LoadedCfg.region))
        (inferRegion e (ipCfgRegion e)) with _ | r
    · simp [hc]
    · rw [hc] at h3
      simp [otruthy] at h3
      simp [hc, h3]
  · intro sg h0 h1 h2 h3 h4
    rw [noRpOutcome e auth0 h0]
    unfold resolveFromInstancePrincipals
    rw [h1]
    unfold resolveTail
    rw [h2, h3]
    rcases hc : inferRegion e (e.loadedConfig.bind LoadedCfg.region) with _ | r
    · simp [hc]
    · rw [hc] at h4
      simp [otruthy] at h4
      simp [hc, h4]
  · intro c h0 h1 h2 h3
    rw [noRpOutcome e auth0 h0]
    unfold resolveFromInstancePrincipals
    rw [h1]
    unfold resolveTail
    rw [h2, h3]
    simp

/-- An environment with only the resource-principal signal and signer. -/
def envC6rp : McpEnv :=
  { baseMcpEnv with rpVersionSet := true, rpSignerOk := true }

/-- An environment with only a working instance-principal signer. -/
def envC6ip : McpEnv :=
  { baseMcpEnv with ipSignerOk := true }

/-- An environment with a loaded config carrying no region (user-key mode). -/
def envC6uk : McpEnv :=
  { baseMcpEnv with loadedConfig := some ⟨none, none, none, none, none⟩ }

/-- Witness for C6 (amended): region-required failures in all three signer
modes without a region, and user-API-key success with a regionless config. -/
theorem c6_region_mandatory_modes_witness :
    (getContainerEngineClient envC6rp none).outcome = .error .regionRequiredRP
    ∧ (getContainerEngineClient envC6ip (some "ip")).outcome = .error .regionRequiredIP
    ∧ (getContainerEngineClient envC6 none).outcome = .error .regionRequiredST
    ∧ (getContainerEngineClient envC6uk none).outcome = .ok ⟨.userAPIKey, none⟩ :=
  ⟨(c6_region_mandatory_modes envC6rp none).1 rfl rfl (by decide),
   (c6_region_mandatory_modes envC6ip (some "ip")).2.1 (by decide) (by decide)
     rfl (by decide),
   (c6_region_mandatory_modes envC6 none).2.2.1 ⟨"TOKEN", "key"⟩ (by decide)
     (by decide) (by decide) (by decide) (by decide),
   (c6_region_mandatory_modes envC6uk none).2.2.2 ⟨none, none, none, none, none⟩
     (by decide) (by decide) (by decide) (by decide)⟩

/-- A control client cached for the default `auth = None` argument. -/
def resolvedC9 : Resolved := ⟨.userAPIKey, some "r"⟩

/-- Caches holding one control client and one unexpired credential bundle
for cluster `"c1"` (entry expires at time 1000). -/
def stC9 : AuthCaches :=
  ⟨[(none, resolvedC9)],
   ⟨[(("c1", "PUBLIC_ENDPOINT", "2.0.0"), emptyKubeCfg, 1000)]⟩⟩

/-- A flow environment whose exchange would succeed and whose kubeconfig
loader accepts everything. -/
def feC9 : FlowEnv :=
  ⟨none, none, failOracle, true, "", fun _ => true⟩

/-- Counterexample to C9 as stated: immediately after
`invalidate_auth_cache`, fetching the cluster client for the previously
cached cluster `"c1"` (at time 500, before the entry's expiry) serves the
cached credential bundle and performs NO new exchange against the control
API — the credential-bundle cache is untouched by invalidation. -/
theorem c9_counterexample :
    (loadKubeconfigForCluster feC9 envFailC10 ⟨none, none⟩
        (invalidateAuthCache stC9).cfgCache "c1" "PUBLIC_ENDPOINT"
        (some "2.0.0") (some 3600) 500 500).exchanged = none
    ∧ (loadKubeconfigForCluster feC9 envFailC10 ⟨none, none⟩
        (invalidateAuthCache stC9).cfgCache "c1" "PUBLIC_ENDPOINT"
        (some "2.0.0") (some 3600) 500 500).outcome = .ok emptyKubeCfg := by
  constructor
  · decide
  · decide

/-- C9 (amended): `invalidate_auth_cache` clears exactly the cached control
clients — the next control-client request re-runs identity resolution — and
leaves the credential-bundle cache untouched, so an unexpired previously
cached bundle is still served without a new exchange call. -/
theorem c9_invalidate_scope (s : AuthCaches) :
    (invalidateAuthCache s).ceClients = []
    ∧ (invalidateAuthCache s).cfgCache = s.cfgCache
    ∧ (∀ (e : McpEnv) (auth0 : Option String),
        (getContainerEngineClientCached (invalidateAuthCache s).ceClients
          e auth0).ranResolver = true)
    ∧ (∀ (fe : FlowEnv) (aenv : OciAuthEnv) (ast : OciAuthState)
        (cid ep : String) (tv : Option String) (exp : Option Int)
        (now storeTime : Int) (cfg : KubeCfg),
        cfgCacheGet s.cfgCache (cid, ep, pyStr tv) now = some cfg →
        fe.k8sLoadOk cfg = true →
        (loadKubeconfigForCluster fe aenv ast (invalidateAuthCache s).cfgCache
            cid ep tv exp now storeTime).exchanged = none
        ∧ (loadKubeconfigForCluster fe aenv ast (invalidateAuthCache s).cfgCache
            cid ep tv exp now storeTime).outcome = .ok cfg) := by
  refine ⟨rfl, rfl, ?_, ?_⟩
  · intro e auth0
    unfold getContainerEngineClientCached
    rcases h : (getContainerEngineClient e auth0).outcome <;>
      simp [ceCacheLookup, h]
  · intro fe aenv ast cid ep tv exp now storeTime cfg hget hload
    have hc : (invalidateAuthCache s).cfgCache = s.cfgCache := rfl
    unfold loadKubeconfigForCluster
    rw [hc]
    simp [hget, hload]

/-- Witness for C9 (amended) at the concrete caches `stC9`. -/
theorem c9_invalidate_scope_witness :
    (invalidateAuthCache stC9).ceClients = []
    ∧ (invalidateAuthCache stC9).cfgCache = stC9.cfgCache
    ∧ (getContainerEngineClientCached (invalidateAuthCache stC9).ceClients
        baseMcpEnv none).ranResolver = true
    ∧ (loadKubeconfigForCluster feC9 envFailC10 ⟨none, none⟩
        (invalidateAuthCache stC9).cfgCache "c1" "PUBLIC_ENDPOINT"
        (some "2.0.0") (some 3600) 500 500).exchanged = none :=
  ⟨(c9_invalidate_scope stC9).1, (c9_invalidate_scope stC9).2.1,
   (c9_invalidate_scope stC9).2.2.1 baseMcpEnv none,
   ((c9_invalidate_scope stC9).2.2.2 feC9 envFailC10 ⟨none, none⟩ "c1"
      "PUBLIC_ENDPOINT" (some "2.0.0") (some 3600) 500 500 emptyKubeCfg
      (by decide) (by decide)).1⟩
